import Mathlib

/-!
Verification of the Nemo Run difficulty/scoring progression engine and the
obstacle spawning & collision subsystem.

The definitions below are a shallow embedding of the TypeScript sources:
  * `src/utils/difficultyManager.ts` (class DifficultyManager)
  * `src/utils/constants.ts` (GAME_SETTINGS)
  * the Obstacles component (spawnObstacle, checkCollisions, the useFrame
    update/culling loop)
  * the GameStateContext (setScoreWithMultiplier)
JavaScript numbers are embedded as rationals (arithmetic on the literal
values involved is exact), `Math.sin` is taken as a function parameter,
and the random draws consumed by the spawner are passed in explicitly.
-/

namespace NemoRun

/-- One entry of GAME_SETTINGS.DIFFICULTY_LEVELS; `scoreMultiplier` is an
optional field in the TypeScript interface. -/
structure DifficultyLevel where
  score : ℚ
  speed : ℚ
  spawnRate : ℚ
  scoreMultiplier : Option ℚ
deriving DecidableEq

instance : Inhabited DifficultyLevel := ⟨⟨0, 0, 0, none⟩⟩

/-- Result record of DifficultyManager.calculateGameParameters. -/
structure GameParameters where
  speed : ℚ
  spawnRate : ℚ
  scoreMultiplier : ℚ
  difficultyLevel : ℕ
  nextMilestone : Option ℚ
deriving DecidableEq

/-- JavaScript `x || 1.0` on the optional multiplier: `undefined` and the
falsy number 0 both give 1.0. -/
def multOrDefault (m : Option ℚ) : ℚ :=
  match m with
  | none => 1
  | some v => if v = 0 then 1 else v

/-- The shipped GAME_SETTINGS.DIFFICULTY_LEVELS table (constants.ts);
no entry sets scoreMultiplier. -/
def DIFFICULTY_LEVELS : List DifficultyLevel :=
  [⟨0, 5, 2, none⟩,
   ⟨100, 6, 9/5, none⟩,
   ⟨250, 7, 8/5, none⟩,
   ⟨500, 8, 7/5, none⟩,
   ⟨1000, 9, 6/5, none⟩,
   ⟨2000, 10, 1, none⟩]

/-- GAME_SETTINGS.COLLISION_THRESHOLD = 0.8. -/
def COLLISION_THRESHOLD : ℚ := 4/5

/-- GAME_SETTINGS.OBSTACLE_SPAWN_RATE = 2000 (ms). -/
def OBSTACLE_SPAWN_RATE : ℚ := 2000

/-- GAME_SETTINGS.OBSTACLE_SPAWN_DISTANCE = 100. -/
def OBSTACLE_SPAWN_DISTANCE : ℚ := 100

/-- GAME_SETTINGS.INITIAL_SPEED = 0.5. -/
def INITIAL_SPEED : ℚ := 1/2

/-- The downward scan of getDifficultyLevelIndex: the loop
`for (i = levels.length - 1; i >= 0; i--) if (score >= levels[i].score)
\x7b levelIndex = i; break \x7d` starting at index `n`.  When no entry
matches, the initial value `levelIndex = 0` is returned (the `i = 0` check
cannot change the result, so the base case folds it in). -/
def scanIndex (levels : List DifficultyLevel) (score : ℚ) : ℕ → ℕ
  | 0 => 0
  | i + 1 => if (levels.getD (i+1) default).score ≤ score then i + 1 else scanIndex levels score i

/-- DifficultyManager.getDifficultyLevelIndex. -/
def getDifficultyLevelIndex (levels : List DifficultyLevel) (score : ℚ) : ℕ :=
  scanIndex levels score (levels.length - 1)

/-- DifficultyManager.getNextMilestone: null when
`currentLevelIndex >= levels.length - 1`. -/
def getNextMilestone (levels : List DifficultyLevel) (score : ℚ) : Option ℚ :=
  let currentLevelIndex := getDifficultyLevelIndex levels score
  if levels.length - 1 ≤ currentLevelIndex then none
  else some (levels.getD (currentLevelIndex + 1) default).score

/-- DifficultyManager.calculateGameParameters: raw values at max difficulty
or exactly at a threshold, linear interpolation between levels otherwise. -/
def calculateGameParameters (levels : List DifficultyLevel) (score : ℚ) : GameParameters :=
  let levelIndex := getDifficultyLevelIndex levels score
  let currentLevel := levels.getD levelIndex default
  let nextMilestone := getNextMilestone levels score
  if nextMilestone = none ∨ score = currentLevel.score then
    { speed := currentLevel.speed
      spawnRate := currentLevel.spawnRate
      scoreMultiplier := multOrDefault currentLevel.scoreMultiplier
      difficultyLevel := levelIndex
      nextMilestone := nextMilestone }
  else
    let nextLevel := levels.getD (levelIndex + 1) default
    let progressToNextLevel := (score - currentLevel.score) / (nextLevel.score - currentLevel.score)
    { speed := currentLevel.speed + progressToNextLevel * (nextLevel.speed - currentLevel.speed)
      spawnRate := currentLevel.spawnRate + progressToNextLevel * (nextLevel.spawnRate - currentLevel.spawnRate)
      scoreMultiplier := multOrDefault currentLevel.scoreMultiplier +
        progressToNextLevel * (multOrDefault nextLevel.scoreMultiplier - multOrDefault currentLevel.scoreMultiplier)
      difficultyLevel := levelIndex
      nextMilestone := nextMilestone }

/-- DifficultyManager.isNewDifficultyLevel. -/
def isNewDifficultyLevel (levels : List DifficultyLevel) (previousScore currentScore : ℚ) : Bool :=
  decide (getDifficultyLevelIndex levels previousScore < getDifficultyLevelIndex levels currentScore)

/-- setScoreWithMultiplier from GameStateContext: when playing, adds
`Math.round(baseScoreIncrease * scoreMultiplier)` to the current score
(Mathlib's `round` rounds halves up, exactly like Math.round). -/
def setScoreWithMultiplier (isPlaying : Bool) (scoreMultiplier baseScoreIncrease current : ℚ) : ℚ :=
  if isPlaying then current + (round (baseScoreIncrease * scoreMultiplier) : ℤ) else current

/-- The data-model invariant on the tier table: thresholds strictly
increasing (stated over `getD` so it is decidable for concrete tables). -/
def ThresholdsSorted (levels : List DifficultyLevel) : Prop :=
  ∀ b < levels.length, ∀ a < b, (levels.getD a default).score < (levels.getD b default).score

instance (levels : List DifficultyLevel) : Decidable (ThresholdsSorted levels) :=
  inferInstanceAs (Decidable (∀ b < levels.length, ∀ a < b,
    (levels.getD a default).score < (levels.getD b default).score))

/-- A THREE.Vector3 embedded with rational coordinates. -/
structure Vec3 where
  x : ℚ
  y : ℚ
  z : ℚ
deriving DecidableEq

/-- The closed set of obstacle types. -/
inductive ObstacleType where
  | coral
  | seaweed
  | rock
  | shark
  | jellyfish
deriving DecidableEq

/-- The movement patterns an obstacle configuration can carry. -/
inductive MovementPattern where
  | upDown
  | leftRight
  | zigzag
  | stationary
deriving DecidableEq

/-- Static per-type configuration (the obstacleConfigs useMemo table): the
model keeps the fields the game logic reads. -/
structure ObstacleConfig where
  scale : Vec3
  movement : MovementPattern
  yPosition : ℚ
  amplitude : Option ℚ
  frequency : Option ℚ
  collisionRadius : ℚ

/-- The obstacleConfigs table from the Obstacles component ('static' in the
source is rendered here as MovementPattern.stationary). -/
def obstacleConfigs : ObstacleType → ObstacleConfig
  | .coral => ⟨⟨4/5, 3/2, 4/5⟩, .stationary, -7/2, none, none, 1⟩
  | .seaweed => ⟨⟨1/2, 5/2, 1/2⟩, .leftRight, -3, some (1/5), some 2, 4/5⟩
  | .rock => ⟨⟨6/5, 6/5, 6/5⟩, .stationary, -2, none, none, 11/10⟩
  | .shark => ⟨⟨3/2, 7/10, 7/10⟩, .zigzag, 0, some (3/2), some (1/2), 6/5⟩
  | .jellyfish => ⟨⟨4/5, 6/5, 4/5⟩, .upDown, 1, some (3/2), some (4/5), 7/10⟩

/-- The obstacleColors useMemo table. -/
def obstacleColors : ObstacleType → String
  | .coral => "#ff6f61"
  | .seaweed => "#2e8b57"
  | .rock => "#696969"
  | .shark => "#708090"
  | .jellyfish => "#9370db"

/-- A live obstacle entity (the Obstacle interface).  The shark's mesh
rotation and the jellyfish's pulsing mesh scale are render-only effects on
the THREE object and never flow back into this record, so the record's
rotation and scale stay at their spawn values. -/
structure Obstacle where
  id : ℕ
  type : ObstacleType
  position : Vec3
  scale : Vec3
  rotation : Vec3
  speed : ℚ
  active : Bool
  color : String
  animationOffset : ℚ
  movementPattern : MovementPattern
  amplitude : ℚ
  frequency : ℚ
deriving DecidableEq

/-- The random draws consumed by one spawnObstacle call: the uniformly
chosen type, the two Math.random() draws for x and the y jitter, and the
already-scaled animation phase offset (Math.random() * 2π in the source,
taken here as an arbitrary rational input). -/
structure SpawnInputs where
  type : ObstacleType
  randX : ℚ
  randY : ℚ
  animOffset : ℚ

/-- The component refs owned by the Obstacles component: last spawn
timestamp, the id counter and the active-obstacle list. -/
structure SpawnerState where
  lastSpawnTime : ℚ
  counter : ℕ
  obstacles : List Obstacle
deriving DecidableEq

/-- getDifficultyFactor: the spawner's secondary continuous scaling. -/
def getDifficultyFactor (currentScore : ℚ) : ℚ :=
  1 + currentScore / 5000

/-- spawnObstacle: no-op unless playing; gated on the spawn interval
OBSTACLE_SPAWN_RATE / difficultyFactor; on spawn updates lastSpawnTime,
increments the id counter and appends the new obstacle. -/
def spawnObstacle (isPlaying : Bool) (score currentTime : ℚ) (inp : SpawnInputs)
    (st : SpawnerState) : SpawnerState :=
  if !isPlaying then st
  else
    let difficulty := getDifficultyFactor score
    let spawnInterval := OBSTACLE_SPAWN_RATE / difficulty
    if currentTime - st.lastSpawnTime < spawnInterval then st
    else
      let config := obstacleConfigs inp.type
      let xPos := inp.randX * 10 - 5
      let yPos := config.yPosition +
        (if inp.type ≠ .coral ∧ inp.type ≠ .seaweed then inp.randY * 3 - 3/2 else 0)
      let zPos := -OBSTACLE_SPAWN_DISTANCE
      let newObstacle : Obstacle :=
        { id := st.counter
          type := inp.type
          position := ⟨xPos, yPos, zPos⟩
          scale := config.scale
          rotation := ⟨0, 0, 0⟩
          speed := INITIAL_SPEED * difficulty
          active := true
          color := obstacleColors inp.type
          animationOffset := inp.animOffset
          movementPattern := config.movement
          amplitude := config.amplitude.getD 0
          frequency := config.frequency.getD 0 }
      { lastSpawnTime := currentTime
        counter := st.counter + 1
        obstacles := st.obstacles ++ [newObstacle] }

/-- One obstacle's per-frame update from the useFrame body, parameterized
by the host sine function (Math.sin): advance z by speed * delta * 60,
then apply the movement-pattern overlay, then recompute the active flag
from the culling plane z > 20.  Inactive obstacles are returned
unchanged. -/
def advanceObstacle (sin : ℚ → ℚ) (elapsedTime delta : ℚ) (o : Obstacle) : Obstacle :=
  if !o.active then o
  else
    let z1 := o.position.z + o.speed * delta * 60
    let p2 : Vec3 :=
      match o.movementPattern with
      | .upDown =>
        ⟨o.position.x,
         o.position.y + sin ((elapsedTime + o.animationOffset) * o.frequency) * o.amplitude * delta,
         z1⟩
      | .leftRight =>
        ⟨o.position.x + sin ((elapsedTime + o.animationOffset) * o.frequency) * o.amplitude * delta,
         o.position.y, z1⟩
      | .zigzag =>
        ⟨o.position.x + sin ((elapsedTime + o.animationOffset) * o.frequency) * o.amplitude * delta,
         o.position.y +
           (if o.type = .shark then
             sin ((elapsedTime + o.animationOffset) * o.frequency * 2) * (o.amplitude / 3) * delta
            else 0),
         z1⟩
      | .stationary => ⟨o.position.x, o.position.y, z1⟩
    let isOutOfBounds := decide (p2.z > 20)
    { o with position := p2, active := !isOutOfBounds }

/-- The per-frame list update: map every obstacle through its advance, then
drop the ones whose active flag fell (the .filter in the source). -/
def stepObstacles (sin : ℚ → ℚ) (elapsedTime delta : ℚ)
    (obstacles : List Obstacle) : List Obstacle :=
  (obstacles.map (advanceObstacle sin elapsedTime delta)).filter (fun o => o.active)

/-- One whole frame of the Obstacles component as it mutates the spawner
state: the spawn attempt followed by the motion/culling update (collision
checking reads but never writes the obstacle list). -/
def frameStep (sin : ℚ → ℚ) (isPlaying : Bool) (score currentTime elapsedTime delta : ℚ)
    (inp : SpawnInputs) (st : SpawnerState) : SpawnerState :=
  let st1 := spawnObstacle isPlaying score currentTime inp st
  { st1 with obstacles := stepObstacles sin elapsedTime delta st1.obstacles }

/-- Squared Euclidean distance between two points. -/
def dist2 (a b : Vec3) : ℚ :=
  (a.x - b.x)^2 + (a.y - b.y)^2 + (a.z - b.z)^2

/-- The per-obstacle distance test of checkCollisions.  The source compares
nemoPosition.distanceTo(obstaclePosition) < nemoRadius + obstacleRadius;
since sqrt d < r iff (0 < r and d < r^2), the test is embedded in this
executable square-free form, and the equivalence with the real
square-root comparison is proved in collides_iff_sqrt below. -/
def obstacleCollides (nemoPosition : Vec3) (nemoRadius : ℚ) (o : Obstacle) : Bool :=
  decide (0 < nemoRadius + (obstacleConfigs o.type).collisionRadius ∧
    dist2 nemoPosition o.position < (nemoRadius + (obstacleConfigs o.type).collisionRadius)^2)

/-- checkCollisions: a no-op when the collision guard is already tripped or
the game is not playing; otherwise walks the whole obstacle list with
forEach, and for every active obstacle within collision range sets the
guard and invokes the onCollision callback.  The result is the final guard
value together with the number of onCollision invocations (the forEach
neither breaks nor rechecks the guard, so the count can exceed one). -/
def checkCollisions (isPlaying hasCollided : Bool) (nemoPosition : Vec3)
    (nemoSize : ℚ) (obstacles : List Obstacle) : Bool × ℕ :=
  if hasCollided then (hasCollided, 0)
  else if !isPlaying then (hasCollided, 0)
  else
    let nemoRadius := 1/2 * nemoSize * COLLISION_THRESHOLD
    obstacles.foldl
      (fun acc o =>
        if !o.active then acc
        else if obstacleCollides nemoPosition nemoRadius o then (true, acc.2 + 1)
        else acc)
      (hasCollided, 0)

/-- A concrete active rock obstacle sitting at (0,0,1), within collision
range of a size-1 player at the origin. -/
def rockA : Obstacle :=
  ⟨0, .rock, ⟨0, 0, 1⟩, ⟨6/5, 6/5, 6/5⟩, ⟨0, 0, 0⟩, 1/2, true, "#696969", 0, .stationary, 0, 0⟩

/-- A second rock at the same spot with a fresh id: together with rockA it
makes two simultaneously overlapping obstacles. -/
def rockB : Obstacle := { rockA with id := 1 }

/-- The rock of concrete scenario B, at (0,0,1.2). -/
def rockScenarioB : Obstacle := { rockA with id := 2, position := ⟨0, 0, 6/5⟩ }

/-- The shark of concrete scenario C: zigzag pattern, phase offset 0,
frequency 0.5, amplitude 1.5, as spawnObstacle configures sharks. -/
def sharkScenarioC : Obstacle :=
  ⟨3, .shark, ⟨2, 3, -100⟩, ⟨3/2, 7/10, 7/10⟩, ⟨0, 0, 0⟩, 1/2, true, "#708090", 0, .zigzag, 3/2, 1/2⟩

/-- The downward scan never returns an index above its starting point. -/
theorem scanIndex_le (levels : List DifficultyLevel) (score : ℚ) (n : ℕ) :
    scanIndex levels score n ≤ n := by
  induction n with
  | zero => simp [scanIndex]
  | succ i ih =>
    simp only [scanIndex]
    split
    · exact Nat.le_refl _
    · exact Nat.le_trans ih (Nat.le_succ i)

/-- The downward scan finds the greatest in-range index whose threshold is
at most the score. -/
theorem scanIndex_eq (levels : List DifficultyLevel) (score : ℚ) (j n : ℕ)
    (hjn : j ≤ n)
    (hsj : (levels.getD j default).score ≤ score)
    (habove : ∀ k, j < k → k ≤ n → score < (levels.getD k default).score) :
    scanIndex levels score n = j := by
  induction n with
  | zero =>
    have : j = 0 := Nat.le_zero.mp hjn
    simp [scanIndex, this]
  | succ m ih =>
    rcases Nat.lt_or_ge j (m + 1) with hlt | hge
    · have hm : j ≤ m := Nat.lt_succ_iff.mp hlt
      have htop : score < (levels.getD (m + 1) default).score :=
        habove (m + 1) (Nat.lt_succ_of_le hm) (Nat.le_refl _)
      simp only [scanIndex, if_neg (not_le.mpr htop)]
      exact ih hm fun k hk hkm => habove k hk (Nat.le_succ_of_le hkm)
    · have hj : j = m + 1 := Nat.le_antisymm hjn hge
      subst hj
      simp only [scanIndex, if_pos hsj]

/-- Helper: ordering of thresholds extracted from `ThresholdsSorted`. -/
theorem sorted_lt (levels : List DifficultyLevel) (hs : ThresholdsSorted levels)
    {a b : ℕ} (hab : a < b) (hb : b < levels.length) :
    (levels.getD a default).score < (levels.getD b default).score :=
  hs b hb a hab

/-- The level index is in range for a nonempty table. -/
theorem getDifficultyLevelIndex_lt (levels : List DifficultyLevel) (score : ℚ)
    (hne : 0 < levels.length) :
    getDifficultyLevelIndex levels score < levels.length := by
  unfold getDifficultyLevelIndex
  have h := scanIndex_le levels score (levels.length - 1)
  omega

/-- At a score lying in tier j's half-open window, the scan lands on j. -/
theorem getDifficultyLevelIndex_eq (levels : List DifficultyLevel) (score : ℚ)
    (hs : ThresholdsSorted levels) (j : ℕ) (hj : j < levels.length)
    (hlo : (levels.getD j default).score ≤ score)
    (hhi : j + 1 < levels.length → score < (levels.getD (j + 1) default).score) :
    getDifficultyLevelIndex levels score = j := by
  unfold getDifficultyLevelIndex
  refine scanIndex_eq levels score j (levels.length - 1) (by omega) hlo ?_
  intro k hk hkm
  have hkl : k < levels.length := by omega
  have hj1 : j + 1 < levels.length := by omega
  rcases Nat.eq_or_lt_of_le (Nat.succ_le_of_lt hk) with he | hgt
  · rw [← he]
    exact hhi hj1
  · exact lt_trans (hhi hj1) (sorted_lt levels hs hgt hkl)

/-- Unfolding getNextMilestone once the level index is known. -/
theorem getNextMilestone_eq (levels : List DifficultyLevel) (score : ℚ) (j : ℕ)
    (hidx : getDifficultyLevelIndex levels score = j) :
    getNextMilestone levels score =
      if levels.length - 1 ≤ j then none
      else some (levels.getD (j + 1) default).score := by
  unfold getNextMilestone
  rw [hidx]

/-- At or above the top threshold, calculateGameParameters returns the last
tier's raw values with a null milestone. -/
theorem calcParams_at_top (levels : List DifficultyLevel) (score : ℚ)
    (hne : 0 < levels.length) (hs : ThresholdsSorted levels)
    (h : (levels.getD (levels.length - 1) default).score ≤ score) :
    calculateGameParameters levels score =
      ⟨(levels.getD (levels.length - 1) default).speed,
       (levels.getD (levels.length - 1) default).spawnRate,
       multOrDefault (levels.getD (levels.length - 1) default).scoreMultiplier,
       levels.length - 1, none⟩ := by
  have hidx : getDifficultyLevelIndex levels score = levels.length - 1 :=
    getDifficultyLevelIndex_eq levels score hs _ (by omega) h (fun h1 => absurd h1 (by omega))
  have hmil : getNextMilestone levels score = none := by
    rw [getNextMilestone_eq levels score _ hidx, if_pos (Nat.le_refl _)]
  simp only [calculateGameParameters]
  rw [hidx, hmil, if_pos (Or.inl rfl)]

/-- Exactly at tier j's threshold, calculateGameParameters returns tier j's
raw values. -/
theorem calcParams_at_threshold (levels : List DifficultyLevel)
    (hs : ThresholdsSorted levels) (j : ℕ) (hj : j < levels.length) :
    calculateGameParameters levels (levels.getD j default).score =
      ⟨(levels.getD j default).speed, (levels.getD j default).spawnRate,
       multOrDefault (levels.getD j default).scoreMultiplier, j,
       if levels.length - 1 ≤ j then none
       else some (levels.getD (j + 1) default).score⟩ := by
  have hidx : getDifficultyLevelIndex levels (levels.getD j default).score = j :=
    getDifficultyLevelIndex_eq levels _ hs j hj (le_refl _)
      (fun h1 => sorted_lt levels hs (Nat.lt_succ_self j) h1)
  simp only [calculateGameParameters]
  rw [hidx, getNextMilestone_eq levels _ j hidx, if_pos (Or.inr rfl)]

/-- In tier j's half-open window [threshold j, threshold j+1), the result is
the linear interpolation between tier j and tier j+1 (at the left endpoint
both branches agree, the interpolation term being zero). -/
theorem calcParams_between (levels : List DifficultyLevel)
    (hs : ThresholdsSorted levels) (j : ℕ) (s : ℚ) (hj1 : j + 1 < levels.length)
    (hlo : (levels.getD j default).score ≤ s)
    (hhi : s < (levels.getD (j + 1) default).score) :
    calculateGameParameters levels s =
      ⟨(levels.getD j default).speed +
         (s - (levels.getD j default).score) /
           ((levels.getD (j + 1) default).score - (levels.getD j default).score) *
           ((levels.getD (j + 1) default).speed - (levels.getD j default).speed),
       (levels.getD j default).spawnRate +
         (s - (levels.getD j default).score) /
           ((levels.getD (j + 1) default).score - (levels.getD j default).score) *
           ((levels.getD (j + 1) default).spawnRate - (levels.getD j default).spawnRate),
       multOrDefault (levels.getD j default).scoreMultiplier +
         (s - (levels.getD j default).score) /
           ((levels.getD (j + 1) default).score - (levels.getD j default).score) *
           (multOrDefault (levels.getD (j + 1) default).scoreMultiplier -
             multOrDefault (levels.getD j default).scoreMultiplier),
       j, some (levels.getD (j + 1) default).score⟩ := by
  have hidx : getDifficultyLevelIndex levels s = j :=
    getDifficultyLevelIndex_eq levels s hs j (by omega) hlo (fun _ => hhi)
  have hmil : getNextMilestone levels s = some (levels.getD (j + 1) default).score := by
    rw [getNextMilestone_eq levels s j hidx, if_neg (by omega)]
  simp only [calculateGameParameters]
  rw [hidx, hmil]
  by_cases heq : s = (levels.getD j default).score
  · rw [if_pos (Or.inr heq)]
    rw [heq]
    simp
  · rw [if_neg (not_or.mpr ⟨by simp, heq⟩)]

/-- Both branches of calculateGameParameters report the scanned level index. -/
theorem calcParams_difficultyLevel (levels : List DifficultyLevel) (s : ℚ) :
    (calculateGameParameters levels s).difficultyLevel = getDifficultyLevelIndex levels s := by
  simp only [calculateGameParameters]
  split <;> rfl

/-- Both branches of calculateGameParameters report getNextMilestone. -/
theorem calcParams_nextMilestone (levels : List DifficultyLevel) (s : ℚ) :
    (calculateGameParameters levels s).nextMilestone = getNextMilestone levels s := by
  simp only [calculateGameParameters]
  split <;> rfl

/-- An in-range getD access lands in the list. -/
theorem getD_mem (l : List DifficultyLevel) (n : ℕ) (h : n < l.length) :
    l.getD n default ∈ l := by
  rw [List.getD_eq_get?, List.get?_eq_get h]
  exact List.get_mem l n h

/-- A lerp with positive span is monotone when the endpoint delta is
nonnegative. -/
theorem lerp_mono (a t T d s1 s2 : ℚ) (hT : 0 < T) (h12 : s1 ≤ s2) (hd : 0 ≤ d) :
    a + (s1 - t) / T * d ≤ a + (s2 - t) / T * d := by
  have hp : (s1 - t) / T ≤ (s2 - t) / T := by gcongr
  nlinarith [mul_le_mul_of_nonneg_right hp hd]

/-- A lerp with positive span is antitone when the endpoint delta is
nonpositive. -/
theorem lerp_anti (a t T d s1 s2 : ℚ) (hT : 0 < T) (h12 : s1 ≤ s2) (hd : d ≤ 0) :
    a + (s2 - t) / T * d ≤ a + (s1 - t) / T * d := by
  have hp : (s1 - t) / T ≤ (s2 - t) / T := by gcongr
  nlinarith [mul_le_mul_of_nonpos_right hp hd]

/-- Claim C3: for every score that equals a tier's scoreThreshold exactly,
and for every score at or above the highest threshold,
calculateGameParameters returns that tier's raw speed, spawnRate and
scoreMultiplier unmodified (the multiplier defaulting to 1.0 when
unspecified), and the returned nextMilestone is null iff the returned tier
index is the last tier. -/
theorem claim_C3_threshold_raw_values (levels : List DifficultyLevel)
    (hne : 0 < levels.length) (hs : ThresholdsSorted levels) :
    (∀ j, j < levels.length →
      calculateGameParameters levels (levels.getD j default).score =
        ⟨(levels.getD j default).speed, (levels.getD j default).spawnRate,
         multOrDefault (levels.getD j default).scoreMultiplier, j,
         if levels.length - 1 ≤ j then none
         else some (levels.getD (j + 1) default).score⟩) ∧
    (∀ s : ℚ, (levels.getD (levels.length - 1) default).score ≤ s →
      calculateGameParameters levels s =
        ⟨(levels.getD (levels.length - 1) default).speed,
         (levels.getD (levels.length - 1) default).spawnRate,
         multOrDefault (levels.getD (levels.length - 1) default).scoreMultiplier,
         levels.length - 1, none⟩) ∧
    (∀ s : ℚ, (calculateGameParameters levels s).nextMilestone = none ↔
      (calculateGameParameters levels s).difficultyLevel = levels.length - 1) := by
  refine ⟨fun j hj => calcParams_at_threshold levels hs j hj,
          fun s h => calcParams_at_top levels s hne hs h,
          fun s => ?_⟩
  have hle : getDifficultyLevelIndex levels s ≤ levels.length - 1 :=
    scanIndex_le levels s (levels.length - 1)
  rw [calcParams_nextMilestone, calcParams_difficultyLevel,
      getNextMilestone_eq levels s _ rfl]
  split
  · rename_i hc
    exact iff_of_true rfl (by omega)
  · rename_i hc
    exact iff_of_false (by simp) (by omega)

/-- Claim C4: for every score strictly between two consecutive tier
thresholds, calculateGameParameters linearly interpolates speed, spawnRate
and scoreMultiplier using progress = (s - currentThreshold) /
(nextThreshold - currentThreshold); on the two-tier table of scenario A,
the score 50 yields speed 5.5, spawnRate 1.9, scoreMultiplier 1.0,
tierIndex 0, nextMilestone 100. -/
theorem claim_C4_interpolation (levels : List DifficultyLevel)
    (hs : ThresholdsSorted levels) (j : ℕ) (s : ℚ) (hj1 : j + 1 < levels.length)
    (hlo : (levels.getD j default).score < s)
    (hhi : s < (levels.getD (j + 1) default).score) :
    calculateGameParameters levels s =
      ⟨(levels.getD j default).speed +
         (s - (levels.getD j default).score) /
           ((levels.getD (j + 1) default).score - (levels.getD j default).score) *
           ((levels.getD (j + 1) default).speed - (levels.getD j default).speed),
       (levels.getD j default).spawnRate +
         (s - (levels.getD j default).score) /
           ((levels.getD (j + 1) default).score - (levels.getD j default).score) *
           ((levels.getD (j + 1) default).spawnRate - (levels.getD j default).spawnRate),
       multOrDefault (levels.getD j default).scoreMultiplier +
         (s - (levels.getD j default).score) /
           ((levels.getD (j + 1) default).score - (levels.getD j default).score) *
           (multOrDefault (levels.getD (j + 1) default).scoreMultiplier -
             multOrDefault (levels.getD j default).scoreMultiplier),
       j, some (levels.getD (j + 1) default).score⟩ ∧
    calculateGameParameters [⟨0, 5, 2, some 1⟩, ⟨100, 6, 9/5, some 1⟩] 50 =
      ⟨11/2, 19/10, 1, 0, some 100⟩ := by
  refine ⟨calcParams_between levels hs j s hj1 (le_of_lt hlo) hhi, ?_⟩
  norm_num [calculateGameParameters, getNextMilestone, getDifficultyLevelIndex,
    scanIndex, multOrDefault, Option.some_ne_none]

/-- Claim C5: isNewDifficultyLevel is true iff the tier index of the
current score exceeds the tier index of the previous score; it is false
for two scores in the same tier; a single update jumping from 90 to 300 on
the shipped table reports exactly one new-tier event, for the final tier
reached (index 2, threshold 250). -/
theorem claim_C5_new_tier (levels : List DifficultyLevel) (prev curr : ℚ) :
    (isNewDifficultyLevel levels prev curr = true ↔
      getDifficultyLevelIndex levels prev < getDifficultyLevelIndex levels curr) ∧
    (getDifficultyLevelIndex levels prev = getDifficultyLevelIndex levels curr →
      isNewDifficultyLevel levels prev curr = false) ∧
    (isNewDifficultyLevel DIFFICULTY_LEVELS 90 300 = true ∧
     getDifficultyLevelIndex DIFFICULTY_LEVELS 300 = 2) := by
  refine ⟨by simp [isNewDifficultyLevel], fun h => by simp [isNewDifficultyLevel, h],
    by decide, by decide⟩

/-- Claim C9: within a fixed pair of consecutive tiers, each of speed,
spawnRate and scoreMultiplier changes monotonically in the direction of
that parameter's delta between the two tiers as the score increases from
the lower threshold toward the next threshold. -/
theorem claim_C9_interpolation_monotone (levels : List DifficultyLevel)
    (hs : ThresholdsSorted levels) (j : ℕ) (s1 s2 : ℚ)
    (hj1 : j + 1 < levels.length)
    (hlo : (levels.getD j default).score ≤ s1) (h12 : s1 ≤ s2)
    (hhi : s2 < (levels.getD (j + 1) default).score) :
    (((levels.getD j default).speed ≤ (levels.getD (j + 1) default).speed →
        (calculateGameParameters levels s1).speed ≤ (calculateGameParameters levels s2).speed) ∧
     ((levels.getD (j + 1) default).speed ≤ (levels.getD j default).speed →
        (calculateGameParameters levels s2).speed ≤ (calculateGameParameters levels s1).speed)) ∧
    (((levels.getD j default).spawnRate ≤ (levels.getD (j + 1) default).spawnRate →
        (calculateGameParameters levels s1).spawnRate ≤ (calculateGameParameters levels s2).spawnRate) ∧
     ((levels.getD (j + 1) default).spawnRate ≤ (levels.getD j default).spawnRate →
        (calculateGameParameters levels s2).spawnRate ≤ (calculateGameParameters levels s1).spawnRate)) ∧
    ((multOrDefault (levels.getD j default).scoreMultiplier ≤
        multOrDefault (levels.getD (j + 1) default).scoreMultiplier →
        (calculateGameParameters levels s1).scoreMultiplier ≤
          (calculateGameParameters levels s2).scoreMultiplier) ∧
     (multOrDefault (levels.getD (j + 1) default).scoreMultiplier ≤
        multOrDefault (levels.getD j default).scoreMultiplier →
        (calculateGameParameters levels s2).scoreMultiplier ≤
          (calculateGameParameters levels s1).scoreMultiplier)) := by
  have h1 := calcParams_between levels hs j s1 hj1 hlo (lt_of_le_of_lt h12 hhi)
  have h2 := calcParams_between levels hs j s2 hj1 (le_trans hlo h12) hhi
  rw [h1, h2]
  have hT : (0:ℚ) < (levels.getD (j + 1) default).score - (levels.getD j default).score :=
    sub_pos.mpr (sorted_lt levels hs (Nat.lt_succ_self j) hj1)
  refine ⟨⟨fun hd => ?_, fun hd => ?_⟩, ⟨fun hd => ?_, fun hd => ?_⟩,
          fun hd => ?_, fun hd => ?_⟩
  · exact lerp_mono _ _ _ _ _ _ hT h12 (sub_nonneg.mpr hd)
  · exact lerp_anti _ _ _ _ _ _ hT h12 (sub_nonpos.mpr hd)
  · exact lerp_mono _ _ _ _ _ _ hT h12 (sub_nonneg.mpr hd)
  · exact lerp_anti _ _ _ _ _ _ hT h12 (sub_nonpos.mpr hd)
  · exact lerp_mono _ _ _ _ _ _ hT h12 (sub_nonneg.mpr hd)
  · exact lerp_anti _ _ _ _ _ _ hT h12 (sub_nonpos.mpr hd)

/-- Claim C10: with the shipped DIFFICULTY_LEVELS table, in which no tier
defines a scoreMultiplier, the computed scoreMultiplier is exactly 1.0 for
every score at or above 0, so the multiplier applied by the score setter
never changes an integral base score increment. -/
theorem claim_C10_shipped_multiplier_one (s : ℚ) (hs : 0 ≤ s) :
    (calculateGameParameters DIFFICULTY_LEVELS s).scoreMultiplier = 1 ∧
    ∀ (base : ℤ) (current : ℚ),
      setScoreWithMultiplier true
        ((calculateGameParameters DIFFICULTY_LEVELS s).scoreMultiplier)
        (base : ℚ) current = current + base := by
  have h1 : (calculateGameParameters DIFFICULTY_LEVELS s).scoreMultiplier = 1 := by
    have hidx := getDifficultyLevelIndex_lt DIFFICULTY_LEVELS s (by decide)
    have hcur : (DIFFICULTY_LEVELS.getD
        (getDifficultyLevelIndex DIFFICULTY_LEVELS s) default).scoreMultiplier = none :=
      (by decide : ∀ l ∈ DIFFICULTY_LEVELS, l.scoreMultiplier = none) _
        (getD_mem DIFFICULTY_LEVELS _ hidx)
    simp only [calculateGameParameters]
    split
    · rw [hcur]
      rfl
    · rename_i hcond
      have hnm : ¬ getNextMilestone DIFFICULTY_LEVELS s = none :=
        fun h => hcond (Or.inl h)
      have hj1 : getDifficultyLevelIndex DIFFICULTY_LEVELS s + 1 <
          DIFFICULTY_LEVELS.length := by
        by_contra hc
        exact hnm (by rw [getNextMilestone_eq DIFFICULTY_LEVELS s _ rfl,
          if_pos (by omega)])
      have hnext : (DIFFICULTY_LEVELS.getD
          (getDifficultyLevelIndex DIFFICULTY_LEVELS s + 1) default).scoreMultiplier = none :=
        (by decide : ∀ l ∈ DIFFICULTY_LEVELS, l.scoreMultiplier = none) _
          (getD_mem DIFFICULTY_LEVELS _ hj1)
      rw [hcur, hnext]
      simp [multOrDefault]
  refine ⟨h1, fun base current => ?_⟩
  rw [h1]
  simp [setScoreWithMultiplier, round_intCast]

/-- Witness for claim C3 on the shipped table: above the highest threshold
(2000), the score 5000 yields the last tier's raw values. -/
theorem claim_C3_threshold_raw_values_witness :
    calculateGameParameters DIFFICULTY_LEVELS 5000 = ⟨10, 1, 1, 5, none⟩ := by
  have h := (claim_C3_threshold_raw_values DIFFICULTY_LEVELS (by decide)
    (by decide)).2.1 5000 (by decide)
  rw [h]
  norm_num [DIFFICULTY_LEVELS, multOrDefault]

/-- Witness for claim C4 on the shipped table: score 50 sits strictly
between thresholds 0 and 100 and interpolates to speed 5.5, spawnRate 1.9. -/
theorem claim_C4_interpolation_witness :
    calculateGameParameters DIFFICULTY_LEVELS 50 = ⟨11/2, 19/10, 1, 0, some 100⟩ := by
  have h := (claim_C4_interpolation DIFFICULTY_LEVELS (by decide) 0 50 (by decide)
    (by decide) (by decide)).1
  rw [h]
  norm_num [DIFFICULTY_LEVELS, multOrDefault]

/-- Witness for claim C5 at the concrete jump of the testable property. -/
theorem claim_C5_new_tier_witness :
    isNewDifficultyLevel DIFFICULTY_LEVELS 90 300 = true ∧
    getDifficultyLevelIndex DIFFICULTY_LEVELS 300 = 2 :=
  (claim_C5_new_tier DIFFICULTY_LEVELS 90 300).2.2

/-- Witness for claim C9 on the shipped table between tiers 0 and 1: speed
rises (delta +1) and spawnRate falls (delta -0.2) from score 0 to 50. -/
theorem claim_C9_interpolation_monotone_witness :
    (calculateGameParameters DIFFICULTY_LEVELS 0).speed ≤
      (calculateGameParameters DIFFICULTY_LEVELS 50).speed ∧
    (calculateGameParameters DIFFICULTY_LEVELS 50).spawnRate ≤
      (calculateGameParameters DIFFICULTY_LEVELS 0).spawnRate := by
  have h := claim_C9_interpolation_monotone DIFFICULTY_LEVELS (by decide) 0 0 50
    (by decide) (by decide) (by decide) (by decide)
  exact ⟨h.1.1 (by norm_num [DIFFICULTY_LEVELS]), h.2.1.2 (by norm_num [DIFFICULTY_LEVELS])⟩

/-- Witness for claim C10 at score 0: multiplier 1.0 and an increment of 7
is added unchanged. -/
theorem claim_C10_shipped_multiplier_one_witness :
    (calculateGameParameters DIFFICULTY_LEVELS 0).scoreMultiplier = 1 ∧
    setScoreWithMultiplier true
      ((calculateGameParameters DIFFICULTY_LEVELS 0).scoreMultiplier)
      ((7 : ℤ) : ℚ) 5 = 5 + (7 : ℤ) :=
  ⟨(claim_C10_shipped_multiplier_one 0 le_rfl).1,
   (claim_C10_shipped_multiplier_one 0 le_rfl).2 7 5⟩

/-- Claim C1, evaluated at the failing input: with the guard clear, one
checkCollisions invocation over two simultaneously overlapping rocks fires
the onCollision callback twice, because the forEach walks every remaining
obstacle without breaking or rechecking the guard — the collision event is
not emitted at most once per session.  The cross-call latch itself does
hold: with the guard tripped the call is a no-op, and after a guard reset
the same overlap detects afresh. -/
theorem claim_C1_collision_guard_bug :
    checkCollisions true false ⟨0, 0, 0⟩ 1 [rockA, rockB] = (true, 2) ∧
    checkCollisions true true ⟨0, 0, 0⟩ 1 [rockA, rockB] = (true, 0) ∧
    (checkCollisions true false ⟨0, 0, 0⟩ 1 [rockScenarioB]).2 = 1 := by
  norm_num [checkCollisions, obstacleCollides, dist2, obstacleConfigs,
    COLLISION_THRESHOLD, rockA, rockB, rockScenarioB]

/-- The executable collision test agrees with the source's comparison of
the Euclidean distance (a real square root) against the summed radii. -/
theorem collides_iff_sqrt (nemoPosition : Vec3) (nemoRadius : ℚ) (o : Obstacle) :
    obstacleCollides nemoPosition nemoRadius o = true ↔
      Real.sqrt ((dist2 nemoPosition o.position : ℚ) : ℝ) <
        ((nemoRadius + (obstacleConfigs o.type).collisionRadius : ℚ) : ℝ) := by
  unfold obstacleCollides
  rw [decide_eq_true_iff]
  constructor
  · rintro ⟨hr, hd⟩
    have hr' : (0:ℝ) < ((nemoRadius + (obstacleConfigs o.type).collisionRadius : ℚ) : ℝ) := by
      exact_mod_cast hr
    refine (Real.sqrt_lt' hr').mpr ?_
    exact_mod_cast hd
  · intro h
    have hr' : (0:ℝ) < ((nemoRadius + (obstacleConfigs o.type).collisionRadius : ℚ) : ℝ) :=
      lt_of_le_of_lt (Real.sqrt_nonneg _) h
    have hd' := (Real.sqrt_lt' hr').mp h
    exact ⟨by exact_mod_cast hr', by exact_mod_cast hd'⟩

/-- Claim C2: with the guard clear and play active, checkCollisions over a
single active obstacle reports a collision exactly when the 3D Euclidean
distance between the player position and the obstacle position is strictly
less than 0.5 * playerSizeScale * COLLISION_THRESHOLD plus the obstacle
type's collisionRadius. -/
theorem claim_C2_euclidean_collision (nemoPosition : Vec3) (nemoSize : ℚ)
    (o : Obstacle) (ha : o.active = true) :
    (checkCollisions true false nemoPosition nemoSize [o]).2 ≠ 0 ↔
      Real.sqrt (((nemoPosition.x : ℝ) - (o.position.x : ℝ))^2 +
          ((nemoPosition.y : ℝ) - (o.position.y : ℝ))^2 +
          ((nemoPosition.z : ℝ) - (o.position.z : ℝ))^2) <
        (1/2 : ℝ) * (nemoSize : ℝ) * (COLLISION_THRESHOLD : ℚ) +
          ((obstacleConfigs o.type).collisionRadius : ℝ) := by
  have hstep : (checkCollisions true false nemoPosition nemoSize [o]).2 ≠ 0 ↔
      obstacleCollides nemoPosition (1/2 * nemoSize * COLLISION_THRESHOLD) o = true := by
    by_cases hc : obstacleCollides nemoPosition (1/2 * nemoSize * COLLISION_THRESHOLD) o = true
    all_goals simp only [one_div] at hc
    all_goals simp [checkCollisions, ha, hc]
  rw [hstep, collides_iff_sqrt]
  have harg : ((dist2 nemoPosition o.position : ℚ) : ℝ) =
      ((nemoPosition.x : ℝ) - (o.position.x : ℝ))^2 +
        ((nemoPosition.y : ℝ) - (o.position.y : ℝ))^2 +
        ((nemoPosition.z : ℝ) - (o.position.z : ℝ))^2 := by
    unfold dist2
    push_cast
    ring
  have hrad : ((1/2 * nemoSize * COLLISION_THRESHOLD +
      (obstacleConfigs o.type).collisionRadius : ℚ) : ℝ) =
      (1/2 : ℝ) * (nemoSize : ℝ) * (COLLISION_THRESHOLD : ℚ) +
        ((obstacleConfigs o.type).collisionRadius : ℝ) := by
    push_cast
    ring
  rw [harg, hrad]

/-- Witness for claim C2 at concrete scenario B: size-1 player at the
origin against a rock at (0,0,1.2) — distance 1.2 < 0.4 + 1.1, so the
collision is reported. -/
theorem claim_C2_euclidean_collision_witness :
    (checkCollisions true false ⟨0, 0, 0⟩ 1 [rockScenarioB]).2 ≠ 0 := by
  rw [claim_C2_euclidean_collision ⟨0, 0, 0⟩ 1 rockScenarioB rfl]
  have h32 : (0:ℝ) < 3/2 := by norm_num
  have hval : Real.sqrt ((6/5 : ℝ)^2) < 3/2 := (Real.sqrt_lt' h32).mpr (by norm_num)
  have hshape : (((⟨0, 0, 0⟩ : Vec3).x : ℝ) - (rockScenarioB.position.x : ℝ))^2 +
      (((⟨0, 0, 0⟩ : Vec3).y : ℝ) - (rockScenarioB.position.y : ℝ))^2 +
      (((⟨0, 0, 0⟩ : Vec3).z : ℝ) - (rockScenarioB.position.z : ℝ))^2 = (6/5 : ℝ)^2 := by
    norm_num [rockScenarioB, rockA]
  rw [hshape]
  refine lt_of_lt_of_le hval ?_
  norm_num [rockScenarioB, rockA, obstacleConfigs, COLLISION_THRESHOLD]

/-- Claim C6: spawnObstacle performs no spawn when isPlaying is false;
when playing it leaves the state untouched while
currentTime - lastSpawnTime is below 2000 / (1 + score/5000), and once the
interval has elapsed it sets lastSpawnTime to currentTime, bumps the id
counter and appends exactly one obstacle. -/
theorem claim_C6_spawn_gate (score currentTime : ℚ) (inp : SpawnInputs)
    (st : SpawnerState) :
    (spawnObstacle false score currentTime inp st = st) ∧
    (currentTime - st.lastSpawnTime < OBSTACLE_SPAWN_RATE / (1 + score / 5000) →
      spawnObstacle true score currentTime inp st = st) ∧
    (OBSTACLE_SPAWN_RATE / (1 + score / 5000) ≤ currentTime - st.lastSpawnTime →
      (spawnObstacle true score currentTime inp st).lastSpawnTime = currentTime ∧
      (spawnObstacle true score currentTime inp st).counter = st.counter + 1 ∧
      (spawnObstacle true score currentTime inp st).obstacles.length =
        st.obstacles.length + 1) := by
  refine ⟨by simp [spawnObstacle], fun h => ?_, fun h => ?_⟩
  · simp [spawnObstacle, getDifficultyFactor, h]
  · have hn : ¬ (currentTime - st.lastSpawnTime < OBSTACLE_SPAWN_RATE / (1 + score / 5000)) :=
      not_lt.mpr h
    refine ⟨?_, ?_, ?_⟩ <;> simp [spawnObstacle, getDifficultyFactor, hn]

/-- Witness for claim C6 at concrete scenario D: lastSpawnTime 1000 and
score 0 (interval 2000); the call at 1500 changes nothing and the call at
3100 spawns and stamps lastSpawnTime = 3100. -/
theorem claim_C6_spawn_gate_witness :
    spawnObstacle true 0 1500 ⟨.rock, 1/2, 1/2, 0⟩ ⟨1000, 0, []⟩ = ⟨1000, 0, []⟩ ∧
    (spawnObstacle true 0 3100 ⟨.rock, 1/2, 1/2, 0⟩ ⟨1000, 0, []⟩).lastSpawnTime = 3100 ∧
    (spawnObstacle true 0 3100 ⟨.rock, 1/2, 1/2, 0⟩ ⟨1000, 0, []⟩).obstacles.length = 1 :=
  ⟨(claim_C6_spawn_gate 0 1500 ⟨.rock, 1/2, 1/2, 0⟩ ⟨1000, 0, []⟩).2.1
      (by norm_num [OBSTACLE_SPAWN_RATE]),
   ((claim_C6_spawn_gate 0 3100 ⟨.rock, 1/2, 1/2, 0⟩ ⟨1000, 0, []⟩).2.2
      (by norm_num [OBSTACLE_SPAWN_RATE])).1,
   ((claim_C6_spawn_gate 0 3100 ⟨.rock, 1/2, 1/2, 0⟩ ⟨1000, 0, []⟩).2.2
      (by norm_num [OBSTACLE_SPAWN_RATE])).2.2⟩

/-- Claim C7: every per-frame advance of an active obstacle increases its z
coordinate by speed * delta * 60, whatever the movement pattern; for a
zigzag shark with phase offset 0 advanced at elapsedTime 0 with frequency
0.5 and amplitude 1.5, both sine overlays evaluate at argument 0, so with
sin 0 = 0 the x and y coordinates keep their spawn values and z advances
by exactly speed when delta = 1/60. -/
theorem claim_C7_advance (sin : ℚ → ℚ) (elapsedTime delta : ℚ) (o : Obstacle)
    (ha : o.active = true) (hsin : sin 0 = 0) :
    ((advanceObstacle sin elapsedTime delta o).position.z =
      o.position.z + o.speed * delta * 60) ∧
    (o.type = .shark → o.movementPattern = .zigzag → o.animationOffset = 0 →
     o.frequency = 1/2 → o.amplitude = 3/2 → elapsedTime = 0 → delta = 1/60 →
      (advanceObstacle sin elapsedTime delta o).position =
        ⟨o.position.x, o.position.y, o.position.z + o.speed⟩) := by
  constructor
  · cases hmp : o.movementPattern <;> simp [advanceObstacle, ha, hmp]
  · intro ht hmp hoff hfreq hamp he hd
    subst he hd
    simp only [advanceObstacle, ha, Bool.not_true, Bool.false_eq_true, if_false]
    rw [hmp]
    simp only [hoff, hfreq, hamp, ht]
    have hz : o.position.z + o.speed * (1/60) * 60 = o.position.z + o.speed := by ring
    simp [hsin, hz]

/-- Witness for claim C7 at concrete scenario C (taking the identity map
for the sine parameter, which satisfies sin 0 = 0): the scenario shark at
(2, 3, -100) with speed 0.5 ends at (2, 3, -99.5). -/
theorem claim_C7_advance_witness :
    (advanceObstacle (fun q => q) 0 (1/60) sharkScenarioC).position = ⟨2, 3, -199/2⟩ := by
  have h := (claim_C7_advance (fun q => q) 0 (1/60) sharkScenarioC rfl rfl).2
    rfl rfl rfl rfl rfl rfl rfl
  rw [h]
  norm_num [sharkScenarioC]

/-- advanceObstacle never changes an obstacle's id. -/
theorem advanceObstacle_id (sin : ℚ → ℚ) (elapsedTime delta : ℚ) (o : Obstacle) :
    (advanceObstacle sin elapsedTime delta o).id = o.id := by
  unfold advanceObstacle
  split <;> rfl

/-- advanceObstacle passes inactive obstacles through unchanged. -/
theorem advanceObstacle_inactive (sin : ℚ → ℚ) (elapsedTime delta : ℚ) (o : Obstacle)
    (h : o.active = false) :
    advanceObstacle sin elapsedTime delta o = o := by
  simp [advanceObstacle, h]

/-- Everything the per-frame filter keeps is active. -/
theorem stepObstacles_active (sin : ℚ → ℚ) (elapsedTime delta : ℚ)
    (obstacles : List Obstacle) :
    ∀ x ∈ stepObstacles sin elapsedTime delta obstacles, x.active = true := by
  intro x hx
  unfold stepObstacles at hx
  exact (List.mem_filter.mp hx).2

/-- Everything the per-frame update produces is the advance of some input
obstacle. -/
theorem stepObstacles_mem (sin : ℚ → ℚ) (elapsedTime delta : ℚ)
    (obstacles : List Obstacle) (x : Obstacle)
    (hx : x ∈ stepObstacles sin elapsedTime delta obstacles) :
    ∃ y ∈ obstacles, x = advanceObstacle sin elapsedTime delta y := by
  unfold stepObstacles at hx
  obtain ⟨hmem, _⟩ := List.mem_filter.mp hx
  obtain ⟨y, hy, he⟩ := List.mem_map.mp hmem
  exact ⟨y, hy, he.symm⟩

/-- spawnObstacle either leaves the state untouched or appends one fresh
obstacle carrying the pre-increment counter as its id. -/
theorem spawnObstacle_cases (isPlaying : Bool) (score currentTime : ℚ)
    (inp : SpawnInputs) (st : SpawnerState) :
    spawnObstacle isPlaying score currentTime inp st = st ∨
    ((spawnObstacle isPlaying score currentTime inp st).counter = st.counter + 1 ∧
     ∃ newObs : Obstacle, newObs.id = st.counter ∧
       (spawnObstacle isPlaying score currentTime inp st).obstacles =
         st.obstacles ++ [newObs]) := by
  unfold spawnObstacle
  cases isPlaying
  · left
    rfl
  · simp only [Bool.not_true, Bool.false_eq_true, if_false]
    split
    · left
      rfl
    · right
      exact ⟨rfl, _, rfl, rfl⟩

/-- Claim C8: an active obstacle's advance turns the active flag false
exactly when the updated z exceeds 20 (so the flag falls on the first
frame the position crosses the cull plane, and because the filter then
drops the obstacle it cannot fall a second time); inactive obstacles are
never touched, everything the collection keeps is active, a culled
obstacle is dropped from the collection, and across a whole frame
(spawn then advance/cull) an id that has left the active set and is below
the id counter never reappears, the counter invariant being preserved. -/
theorem claim_C8_culling_one_way (sin : ℚ → ℚ) (elapsedTime delta : ℚ)
    (o : Obstacle) (obstacles : List Obstacle) (isPlaying : Bool)
    (score currentTime : ℚ) (inp : SpawnInputs) (st : SpawnerState) (i : ℕ) :
    (o.active = true →
      ((advanceObstacle sin elapsedTime delta o).active = false ↔
        20 < (advanceObstacle sin elapsedTime delta o).position.z)) ∧
    (o.active = false → advanceObstacle sin elapsedTime delta o = o) ∧
    (∀ x ∈ stepObstacles sin elapsedTime delta obstacles, x.active = true) ∧
    ((advanceObstacle sin elapsedTime delta o).active = false →
      advanceObstacle sin elapsedTime delta o ∉
        stepObstacles sin elapsedTime delta obstacles) ∧
    ((∀ ob ∈ st.obstacles, ob.id < st.counter) → i < st.counter →
     (∀ ob ∈ st.obstacles, ob.id ≠ i) →
      (∀ ob ∈ (frameStep sin isPlaying score currentTime elapsedTime delta inp st).obstacles,
        ob.id ≠ i) ∧
      (∀ ob ∈ (frameStep sin isPlaying score currentTime elapsedTime delta inp st).obstacles,
        ob.id < (frameStep sin isPlaying score currentTime elapsedTime delta inp st).counter)) := by
  refine ⟨fun ha => ?_, advanceObstacle_inactive sin elapsedTime delta o,
          stepObstacles_active sin elapsedTime delta obstacles,
          fun hdead hmem => ?_, fun hinv hi habs => ?_⟩
  · simp [advanceObstacle, ha]
  · exact absurd (stepObstacles_active sin elapsedTime delta obstacles _ hmem)
      (by rw [hdead]; exact Bool.false_ne_true)
  · have hobsF : (frameStep sin isPlaying score currentTime elapsedTime delta inp st).obstacles =
        stepObstacles sin elapsedTime delta
          (spawnObstacle isPlaying score currentTime inp st).obstacles := rfl
    have hctrF : (frameStep sin isPlaying score currentTime elapsedTime delta inp st).counter =
        (spawnObstacle isPlaying score currentTime inp st).counter := rfl
    have key : ∀ ob ∈ (frameStep sin isPlaying score currentTime elapsedTime delta inp st).obstacles,
        ob.id ≠ i ∧
        ob.id < (frameStep sin isPlaying score currentTime elapsedTime delta inp st).counter := by
      intro ob hob
      rw [hobsF] at hob
      obtain ⟨y, hy, he⟩ := stepObstacles_mem sin elapsedTime delta _ ob hob
      have hid : ob.id = y.id := by
        rw [he]
        exact advanceObstacle_id sin elapsedTime delta y
      rw [hctrF, hid]
      rcases spawnObstacle_cases isPlaying score currentTime inp st with h1 | ⟨hc, newObs, hnid, hobs⟩
      · rw [h1] at hy ⊢
        exact ⟨habs y hy, hinv y hy⟩
      · rw [hobs] at hy
        rw [hc]
        rcases List.mem_append.mp hy with hy1 | hy2
        · exact ⟨habs y hy1, Nat.lt_succ_of_lt (hinv y hy1)⟩
        · have hynew : y = newObs := List.mem_singleton.mp hy2
          rw [hynew, hnid]
          exact ⟨Nat.ne_of_gt hi, Nat.lt_succ_self _⟩
    exact ⟨fun ob hob => (key ob hob).1, fun ob hob => (key ob hob).2⟩

/-- Witness for claim C8: starting from a state holding the rock with id 0
and counter 2, after a full playing frame at currentTime 5000 the retired
id 1 is absent from the active set and every id stays below the counter. -/
theorem claim_C8_culling_one_way_witness :
    (∀ ob ∈ (frameStep (fun q => q) true 0 5000 0 (1/60) ⟨.rock, 1/2, 1/2, 0⟩
        ⟨0, 2, [rockA]⟩).obstacles, ob.id ≠ 1) ∧
    (∀ ob ∈ (frameStep (fun q => q) true 0 5000 0 (1/60) ⟨.rock, 1/2, 1/2, 0⟩
        ⟨0, 2, [rockA]⟩).obstacles,
      ob.id < (frameStep (fun q => q) true 0 5000 0 (1/60) ⟨.rock, 1/2, 1/2, 0⟩
        ⟨0, 2, [rockA]⟩).counter) :=
  (claim_C8_culling_one_way (fun q => q) 0 (1/60) rockA [rockA] true 0 5000
    ⟨.rock, 1/2, 1/2, 0⟩ ⟨0, 2, [rockA]⟩ 1).2.2.2.2
    (by decide) (by decide) (by decide)

end NemoRun
